import Mathlib

/-!
Shallow embedding of `src/main.py` (render-weather-bot), restricted to the
forecast aggregation / layout / pipeline core that the specification covers.

Modelling conventions:
* Python floats are modelled as exact rationals (`ℚ`); `int(x)` is truncation
  toward zero (`pyInt`), `round(x)` is round-half-to-even (`pyRoundInt`),
  `round(x, 1)` rounds to one decimal half-to-even (`pyRound1`).
* A timeseries entry's parsed local calendar date is modelled directly as an
  integer day number (`RawItem.time`); `none` stands for a missing `time`
  field or an unparseable timestamp (both are skipped by the source).
* JSON absence/defaulting (`dict.get(key, default)`) is modelled with
  `Option` and `Option.getD`.
* The interpolation of numbers into display strings (Python f-strings) is
  not modelled glyph-for-glyph; the snapshot keeps the interpolated values
  as structured fields instead.
-/

/-- Python `int(q)` on a float: truncation toward zero. -/
def pyInt (q : ℚ) : ℤ :=
  if 0 ≤ q then ⌊q⌋ else -⌊-q⌋

/-- Python `round(q)`: round half to even, to an integer. -/
def pyRoundInt (q : ℚ) : ℤ :=
  if q - ⌊q⌋ < 1/2 then ⌊q⌋
  else if 1/2 < q - ⌊q⌋ then ⌊q⌋ + 1
  else if ⌊q⌋ % 2 = 0 then ⌊q⌋ else ⌊q⌋ + 1

/-- Python `round(q, 1)`: round half to even, to one decimal place. -/
def pyRound1 (q : ℚ) : ℚ :=
  (pyRoundInt (10 * q) : ℚ) / 10

/-- The 16 compass labels of `main.py:130`. -/
def compassDirs : List String :=
  ["N","NNE","NE","ENE","E","ESE","SE","SSE","S","SSW","SW","WSW","W","WNW","NW","NNW"]

/-- `deg_to_compass` of `main.py:127-132`: `None` bearing gives `"?"`,
otherwise index `int((deg + 11.25) / 22.5) % 16` into the 16 labels. -/
def deg_to_compass (deg : Option ℚ) : String :=
  match deg with
  | none => "?"
  | some d => compassDirs.getD (pyInt ((d + 11.25) / 22.5) % 16).toNat "?"

/-- One entry of the raw feed's `properties.timeseries`, after the field
accesses of `main.py:142-168`.  `time` is the entry's local calendar date
(`none` = missing or unparseable timestamp); `next1h` models the
`next_1_hours` block: `none` = no block or empty/absent `details`,
`some a` = details present, where `a` is the optional
`precipitation_amount`. -/
structure RawItem where
  time : Option ℤ
  temp : Option ℚ
  wind_speed : Option ℚ
  wind_dir : Option ℚ
  next1h : Option (Option ℚ)
deriving DecidableEq

/-- The `properties` object of the raw feed. -/
structure FeedProps where
  timeseries : Option (List RawItem)
deriving DecidableEq

/-- The raw JSON feed: may lack the `properties` object entirely. -/
structure RawFeed where
  properties : Option FeedProps
deriving DecidableEq

/-- `json_data.get("properties", {}).get("timeseries", [])`
(`main.py:136-137` and `main.py:192`). -/
def feedTimeseries (feed : RawFeed) : List RawItem :=
  match feed.properties with
  | none => []
  | some p => p.timeseries.getD []

/-- Per-entry short-window precipitation (`main.py:160-162` and
`main.py:199-201`): 0 when the `next_1_hours` block is absent or its
`details` are empty, else the `precipitation_amount` defaulting to 0. -/
def precipOf (i : RawItem) : ℚ :=
  match i.next1h with
  | none => 0
  | some a => a.getD 0

/-- One per-day summary, the value stored in `results[str(d)]`
(`main.py:181-187`).  There is no snow field: snow is derived during
layout only. -/
structure DaySummary where
  temp_min : Option ℤ
  temp_max : Option ℤ
  wind_speed : Option ℚ
  wind_dir_deg : Option ℚ
  precip_mm : ℚ
deriving DecidableEq

/-- Summarising one non-empty date bucket (`main.py:175-187`). -/
def summarize (lst : List RawItem) : DaySummary :=
  let temps := lst.filterMap (·.temp)
  let wind_speeds := lst.filterMap (·.wind_speed)
  let wind_dirs := lst.filterMap (·.wind_dir)
  let total_precip := (lst.map precipOf).sum
  { temp_min := match temps with
      | [] => none
      | h :: t => some (pyRoundInt (t.foldl min h))
    temp_max := match temps with
      | [] => none
      | h :: t => some (pyRoundInt (t.foldl max h))
    wind_speed := match wind_speeds with
      | [] => none
      | _ :: _ => some (pyRound1 (wind_speeds.sum / wind_speeds.length))
    wind_dir_deg := wind_dirs.get? (wind_dirs.length / 2)
    precip_mm := pyRound1 total_precip }

/-- `parse_yr` (`main.py:134-188`): bucket the feed entries by local date
over the 4-day window starting `today`, drop empty buckets, summarise the
rest.  The source stores the summaries in a dict keyed by ISO date string
and the consumer iterates `sorted(forecast.keys())`; ISO date strings sort
chronologically, so the ascending list built here is exactly the order the
layout consumes. -/
def parse_yr (today : ℤ) (feed : RawFeed) : List (ℤ × DaySummary) :=
  let timeseries := feedTimeseries feed
  (List.range 4).filterMap (fun i : ℕ =>
    let d : ℤ := today + (i : ℤ)
    let lst := timeseries.filter (fun x => x.time = some d)
    if lst.isEmpty then none else some (d, summarize lst))

/-- The dict returned by `parse_current_conditions` (`main.py:202-206`).
The source interpolates `windDir`/`windSpeed` into one `wind` string and
formats `precip` to one decimal (or `"-"` when zero); the values are kept
structured here. -/
structure CurrentCond where
  temp : Option ℚ
  windDir : String
  windSpeed : Option ℚ
  precip : ℚ
deriving DecidableEq

/-- `parse_current_conditions` (`main.py:190-206`): `{}` (here `none`) on
an empty timeseries, otherwise a snapshot of `timeseries[0]` — the first
entry in feed order. -/
def parse_current_conditions (feed : RawFeed) : Option CurrentCond :=
  match feedTimeseries feed with
  | [] => none
  | first :: _ =>
    some { temp := first.temp
           windDir := deg_to_compass first.wind_dir
           windSpeed := first.wind_speed
           precip := precipOf first }

/-- The row height `row_h = 36` of `main.py:229`. -/
def row_h : ℕ := 36

/-- Canvas height `140 + int(num_days * row_h * 1.1)` of `main.py:230`. -/
def canvas_height (num_days : ℕ) : ℤ :=
  140 + pyInt (((num_days * row_h : ℕ) : ℚ) * 1.1)

/-- Snow cell derivation of `main.py:283`:
`round(rain_val * 1.5, 1) if (tmax is not None and tmax <= 0) else 0.0`. -/
def snow_val (tmax : Option ℤ) (rain_val : ℚ) : ℚ :=
  match tmax with
  | some t => if t ≤ 0 then pyRound1 (rain_val * 1.5) else 0
  | none => 0

/-- The persisted settings record (`/tmp/data.json`, `main.py:36`). -/
structure Settings where
  admin_id : Option ℤ
  chat_id : Option ℤ
  coords : Option (ℚ × ℚ)
  location_name : Option String
  enabled : Bool
deriving DecidableEq

/-- Outcome of the single `requests.get(...).json()` call of
`main.py:218-221`: `err` covers any network, HTTP or JSON-decoding
exception (all caught by the same `except` in the source). -/
inductive FetchResult where
  | ok : RawFeed → FetchResult
  | err : FetchResult
deriving DecidableEq

/-- The rendered forecast card, reduced to the data that determines it:
geometry, the consumed summaries and snapshot, and the displayed location
name. -/
structure Rendered where
  width : ℤ
  height : ℤ
  numRows : ℕ
  forecast : List (ℤ × DaySummary)
  current : Option CurrentCond
  location_name : String
deriving DecidableEq

/-- `build_image` (`main.py:209-333`).  The second component records
whether the HTTP request was issued: the source returns `None` before
`requests.get` when no coordinates are set, and returns `None` from the
`except` arm when the fetch/parse raises; otherwise it renders and
returns the image. -/
def build_image (s : Settings) (today : ℤ) (fetch : FetchResult) :
    Option Rendered × Bool :=
  match s.coords with
  | none => (none, false)
  | some _ =>
    match fetch with
    | .err => (none, true)
    | .ok yr_raw =>
      let forecast := parse_yr today yr_raw
      let current := parse_current_conditions yr_raw
      let num_days := forecast.length
      (some { width := 700
              height := canvas_height num_days
              numRows := num_days
              forecast := forecast
              current := current
              location_name :=
                match s.location_name with
                | none => "unknown"
                | some n => if n = "" then "unknown" else n }, true)

/-- The user-visible outcome of `/forecast` (`main.py:336-345`). -/
inductive Reply where
  | notConfigured
  | fetchError
  | photo : Rendered → Option String → Reply
deriving DecidableEq

/-- `forecast_command` (`main.py:336-345`): re-reads the settings record,
answers "Координаты не заданы." when coordinates are unset, otherwise
calls `build_image` and reports every `None` as the generic fetch-error
message; on success it sends the photo captioned with the location
name. -/
def forecast_command (s : Settings) (today : ℤ) (fetch : FetchResult) : Reply :=
  match s.coords with
  | none => .notConfigured
  | some _ =>
    match (build_image s today fetch).1 with
    | none => .fetchError
    | some img => .photo img s.location_name

/-! ### Concrete fixtures used by witnesses and counterexamples -/

/-- A raw feed lacking the `properties` object. -/
def feedNoProps : RawFeed := ⟨none⟩

/-- A raw feed with a `properties` object but no `timeseries` member. -/
def feedNoTs : RawFeed := ⟨some ⟨none⟩⟩

/-- A raw feed whose `timeseries` list is present but empty. -/
def feedEmptyTs : RawFeed := ⟨some ⟨some []⟩⟩

/-- A fully configured settings record, used by concrete witnesses. -/
def settingsW : Settings :=
  { admin_id := none, chat_id := none, coords := some (55.75, 37.62),
    location_name := some "Moscow", enabled := true }

/-- A settings record with no coordinates set. -/
def settingsNoCoords : Settings :=
  { admin_id := none, chat_id := none, coords := none,
    location_name := none, enabled := true }

/-- The image `build_image settingsW 0 (.ok feedEmptyTs)` produces. -/
def imgEmpty : Rendered :=
  { width := 700, height := 140, numRows := 0, forecast := [],
    current := none, location_name := "Moscow" }

/-- Items used in the concrete C2 bucket `[10, 350, 20]`. -/
def dirItem (d : ℚ) : RawItem :=
  { time := some 0, temp := none, wind_speed := none, wind_dir := some d, next1h := none }

/-- A feed entry on day 0 with a temperature, wind and 1.2mm of
short-window precipitation. -/
def itemW : RawItem :=
  { time := some 0, temp := some (-2), wind_speed := some 3,
    wind_dir := some 10, next1h := some (some 1.2) }

/-- A one-entry feed for day 0. -/
def feedW : RawFeed := ⟨some ⟨some [itemW]⟩⟩

/-- First entry of the out-of-order feed `feedC6`: the later timestamp. -/
def itemA : RawItem :=
  { time := some 5, temp := some 20, wind_speed := none,
    wind_dir := none, next1h := none }

/-- Second entry of the out-of-order feed `feedC6`: the earlier timestamp. -/
def itemB : RawItem :=
  { time := some 3, temp := some 10, wind_speed := none,
    wind_dir := none, next1h := none }

/-- A feed that is NOT sorted ascending by time: entry 0 is dated day 5,
entry 1 is dated day 3. -/
def feedC6 : RawFeed := ⟨some ⟨some [itemA, itemB]⟩⟩

/-! ### Helper lemmas about the Python arithmetic primitives -/

theorem pyInt_of_nonneg {q : ℚ} (h : 0 ≤ q) : pyInt q = ⌊q⌋ := if_pos h

theorem floor_le_pyRoundInt (q : ℚ) : ⌊q⌋ ≤ pyRoundInt q := by
  unfold pyRoundInt; split_ifs <;> omega

theorem pyRoundInt_le_floor_add_one (q : ℚ) : pyRoundInt q ≤ ⌊q⌋ + 1 := by
  unfold pyRoundInt; split_ifs <;> omega

theorem pyRoundInt_mono {q r : ℚ} (h : q ≤ r) : pyRoundInt q ≤ pyRoundInt r := by
  rcases lt_or_eq_of_le (Int.floor_le_floor h) with hf | hf
  · calc pyRoundInt q ≤ ⌊q⌋ + 1 := pyRoundInt_le_floor_add_one q
      _ ≤ ⌊r⌋ := by omega
      _ ≤ pyRoundInt r := floor_le_pyRoundInt r
  · have hfr : ((⌊q⌋ : ℚ)) = ((⌊r⌋ : ℚ)) := by exact_mod_cast hf
    have hfrac : q - ⌊q⌋ ≤ r - ⌊r⌋ := by rw [← hfr]; linarith
    unfold pyRoundInt
    split_ifs <;> first | omega | linarith

theorem pyRoundInt_nonneg {q : ℚ} (h : 0 ≤ q) : 0 ≤ pyRoundInt q := by
  have h1 := floor_le_pyRoundInt q
  have h2 : (0:ℤ) ≤ ⌊q⌋ := Int.floor_nonneg.2 h
  omega

theorem pyRound1_nonneg {q : ℚ} (h : 0 ≤ q) : 0 ≤ pyRound1 q := by
  unfold pyRound1
  have h1 : (0:ℤ) ≤ pyRoundInt (10 * q) := pyRoundInt_nonneg (by linarith)
  have h2 : (0:ℚ) ≤ (pyRoundInt (10 * q) : ℚ) := by exact_mod_cast h1
  positivity

theorem foldl_min_le_init (t : List ℚ) (h : ℚ) : t.foldl min h ≤ h := by
  induction t generalizing h with
  | nil => exact le_refl h
  | cons a t ih => exact le_trans (ih (min h a)) (min_le_left h a)

theorem init_le_foldl_max (t : List ℚ) (h : ℚ) : h ≤ t.foldl max h := by
  induction t generalizing h with
  | nil => exact le_refl h
  | cons a t ih => exact le_trans (le_max_left h a) (ih (max h a))

theorem compassDirs_getD_mem : ∀ n : ℕ, n < 16 → compassDirs.getD n "?" ∈ compassDirs := by
  decide

/-! ### Claim theorems -/

/-- Claim C1: for every bearing `deg ∈ [0, 360)`, `deg_to_compass` returns
the label at index `⌊(deg + 11.25) / 22.5⌋ % 16` of the fixed 16-label
list (in particular one of those 16 labels); `deg_to_compass 348.75` and
`deg_to_compass 11.24` are both `"N"`, and an absent bearing gives
`"?"`. -/
theorem C1_deg_to_compass_buckets :
    (∀ d : ℚ, 0 ≤ d → d < 360 →
      deg_to_compass (some d) = compassDirs.getD (⌊(d + 11.25) / 22.5⌋ % 16).toNat "?" ∧
      deg_to_compass (some d) ∈ compassDirs) ∧
    deg_to_compass (some 348.75) = "N" ∧
    deg_to_compass (some 11.24) = "N" ∧
    deg_to_compass none = "?" := by
  refine ⟨fun d h0 _h360 => ?_, ?_, ?_, rfl⟩
  · have hnn : (0:ℚ) ≤ (d + 11.25) / 22.5 := div_nonneg (by linarith) (by norm_num)
    have hix : deg_to_compass (some d) =
        compassDirs.getD (⌊(d + 11.25) / 22.5⌋ % 16).toNat "?" := by
      show compassDirs.getD (pyInt ((d + 11.25) / 22.5) % 16).toNat "?" = _
      rw [pyInt_of_nonneg hnn]
    refine ⟨hix, ?_⟩
    rw [hix]
    apply compassDirs_getD_mem
    have h1 : (0:ℤ) ≤ ⌊(d + 11.25) / 22.5⌋ % 16 := Int.emod_nonneg _ (by norm_num)
    have h2 : ⌊(d + 11.25) / 22.5⌋ % 16 < 16 := Int.emod_lt_of_pos _ (by norm_num)
    omega
  · norm_num [deg_to_compass, pyInt, compassDirs]
  · norm_num [deg_to_compass, pyInt, compassDirs]

/-- Witness for C1 at the concrete bearing 90. -/
theorem C1_witness :
    deg_to_compass (some 90) = compassDirs.getD (⌊((90:ℚ) + 11.25) / 22.5⌋ % 16).toNat "?" ∧
    deg_to_compass (some 90) ∈ compassDirs :=
  C1_deg_to_compass_buckets.1 90 (by norm_num) (by norm_num)

/-- Claim C3: the snow cell is `round(precip * 1.5, 1)` when `temp_max` is
present and `≤ 0`, and `0` otherwise (including an absent `temp_max`);
in particular `temp_max = -1, precip = 2.0` gives `3.0` and
`temp_max = 1, precip = 2.0` gives `0.0`.  Snow is computed by
`build_image` during layout from the summary's `temp_max` and
`precip_mm`; `DaySummary` stores no snow field. -/
theorem C3_snow_cell :
    (∀ (t : ℤ) (r : ℚ), t ≤ 0 → snow_val (some t) r = pyRound1 (r * 1.5)) ∧
    (∀ (t : ℤ) (r : ℚ), 0 < t → snow_val (some t) r = 0) ∧
    (∀ r : ℚ, snow_val none r = 0) ∧
    snow_val (some (-1)) 2 = 3 ∧
    snow_val (some 1) 2 = 0 := by
  refine ⟨fun t r ht => ?_, fun t r ht => ?_, fun r => rfl, ?_, ?_⟩
  · simp [snow_val, ht]
  · simp [snow_val, not_le.2 ht]
  · norm_num [snow_val, pyRound1, pyRoundInt]
  · norm_num [snow_val]

/-- Witness for C3 at concrete inputs. -/
theorem C3_witness :
    snow_val (some (-2)) 4 = pyRound1 (4 * 1.5) ∧ snow_val (some 5) 4 = 0 :=
  ⟨C3_snow_cell.1 (-2) 4 (by norm_num), C3_snow_cell.2.1 5 4 (by norm_num)⟩

/-- Claim C9: for every row count `n`, the canvas height computed before
drawing is `140 + ⌊n * 36 * 1.1⌋` (equivalently `140 + 198 * n / 5` by
integer division), and every image `build_image` produces has fixed width
700 and that height for its row count. -/
theorem C9_canvas_geometry :
    (∀ n : ℕ, canvas_height n = 140 + ⌊((n : ℚ) * 36 * 1.1)⌋ ∧
      canvas_height n = 140 + (198 * (n : ℤ)) / 5) ∧
    (∀ (s : Settings) (today : ℤ) (fetch : FetchResult) (img : Rendered),
      (build_image s today fetch).1 = some img →
      img.width = 700 ∧ img.height = canvas_height img.numRows) := by
  constructor
  · intro n
    constructor
    · unfold canvas_height
      rw [pyInt_of_nonneg (by positivity)]
      congr 2
      push_cast [row_h]
      ring
    · unfold canvas_height
      rw [pyInt_of_nonneg (by positivity)]
      have h : (((n * row_h : ℕ) : ℚ) * 1.1) = ((198 * (n:ℤ) : ℤ) : ℚ) / ((5 : ℕ) : ℚ) := by
        push_cast [row_h]
        norm_num
        ring
      rw [h, Rat.floor_intCast_div_natCast]
      norm_num
  · intro s today fetch img h
    rcases s with ⟨a, c, co, l, e⟩
    cases co with
    | none => simp [build_image] at h
    | some v =>
      cases fetch with
      | err => simp [build_image] at h
      | ok raw =>
        simp only [build_image, Option.some.injEq] at h
        subst h
        exact ⟨rfl, rfl⟩

theorem build_image_feedEmptyTs :
    (build_image settingsW 0 (.ok feedEmptyTs)).1 = some imgEmpty := by
  norm_num [build_image, settingsW, parse_yr, feedTimeseries, feedEmptyTs,
    parse_current_conditions, canvas_height, pyInt, row_h, List.range_succ,
    imgEmpty, (show ("Moscow":String) ≠ "" by decide)]

/-- Witness for C9: the geometry of a concretely built image. -/
theorem C9_witness :
    canvas_height 3 = 140 + ⌊((3 : ℚ) * 36 * 1.1)⌋ ∧
    imgEmpty.width = 700 ∧ imgEmpty.height = canvas_height imgEmpty.numRows :=
  ⟨(C9_canvas_geometry.1 3).1,
   C9_canvas_geometry.2 settingsW 0 (.ok feedEmptyTs) imgEmpty build_image_feedEmptyTs⟩

/-- Claim C2: for every bucket whose present wind directions (in
bucket-arrival order) form a non-empty list of length `k`, the aggregated
`wind_dir_deg` is the element at index `k / 2` of that list; for bucket
directions `[10, 350, 20]` the result is `350` and not the numeric
average; a bucket with no present direction gives `none`. -/
theorem C2_wind_dir_median_index :
    (∀ lst : List RawItem, lst.filterMap (·.wind_dir) ≠ [] →
      ∃ hlt : (lst.filterMap (·.wind_dir)).length / 2 < (lst.filterMap (·.wind_dir)).length,
        (summarize lst).wind_dir_deg =
          some ((lst.filterMap (·.wind_dir)).get
            ⟨(lst.filterMap (·.wind_dir)).length / 2, hlt⟩)) ∧
    (∀ lst : List RawItem, lst.filterMap (·.wind_dir) = [] →
      (summarize lst).wind_dir_deg = none) ∧
    (summarize [dirItem 10, dirItem 350, dirItem 20]).wind_dir_deg = some 350 ∧
    (summarize [dirItem 10, dirItem 350, dirItem 20]).wind_dir_deg ≠
      some (((10:ℚ) + 350 + 20) / 3) := by
  have hdef : ∀ lst : List RawItem, (summarize lst).wind_dir_deg =
      (lst.filterMap (·.wind_dir)).get? ((lst.filterMap (·.wind_dir)).length / 2) :=
    fun lst => rfl
  refine ⟨fun lst h => ?_, fun lst h => ?_, ?_, ?_⟩
  · have hpos : 0 < (lst.filterMap (·.wind_dir)).length := List.length_pos.2 h
    have hlt : (lst.filterMap (·.wind_dir)).length / 2 < (lst.filterMap (·.wind_dir)).length :=
      Nat.div_lt_self hpos one_lt_two
    exact ⟨hlt, by rw [hdef lst]; exact List.get?_eq_get hlt⟩
  · rw [hdef lst, h]
    simp
  · simp [summarize, dirItem]
  · simp [summarize, dirItem]
    norm_num

/-- Witness for C2 at the concrete bucket `[10, 350, 20]`. -/
theorem C2_witness :
    (summarize [dirItem 10, dirItem 350, dirItem 20]).wind_dir_deg = some 350 := by
  rcases C2_wind_dir_median_index.1 [dirItem 10, dirItem 350, dirItem 20] (by simp [dirItem])
    with ⟨hlt, heq⟩
  simpa [dirItem] using heq

/-- `Pairwise` transfers through `filterMap` when the function respects
the relations. -/
theorem pairwise_filterMap_of_pairwise {α β : Type} (R : α → α → Prop) (S : β → β → Prop)
    (f : α → Option β) (l : List α)
    (hf : ∀ a b : α, ∀ p q : β, R a b → f a = some p → f b = some q → S p q)
    (hl : l.Pairwise R) : (l.filterMap f).Pairwise S := by
  induction hl with
  | nil => simp
  | cons ha _ht ih =>
    rename_i a l'
    cases hfa : f a with
    | none => simpa [List.filterMap_cons, hfa] using ih
    | some p =>
      rw [List.filterMap_cons, hfa]
      refine List.Pairwise.cons ?_ ih
      intro q hq
      rcases List.mem_filterMap.1 hq with ⟨b, hb, hfb⟩
      exact hf a b p q (ha b hb) hfa hfb

/-- Characterisation of the entries of `parse_yr`: each comes from a
non-empty date bucket of the 4-day window. -/
theorem parse_yr_mem {today : ℤ} {feed : RawFeed} {p : ℤ × DaySummary}
    (hp : p ∈ parse_yr today feed) :
    ∃ i : ℕ, i < 4 ∧ p.1 = today + i ∧
      (feedTimeseries feed).filter (fun x => x.time = some (today + i)) ≠ [] ∧
      p.2 = summarize ((feedTimeseries feed).filter (fun x => x.time = some (today + i))) := by
  simp only [parse_yr] at hp
  rcases List.mem_filterMap.1 hp with ⟨i, hi, heq⟩
  rw [List.mem_range] at hi
  by_cases hemp : ((feedTimeseries feed).filter (fun x => x.time = some (today + i))).isEmpty
  · rw [if_pos hemp] at heq
    exact absurd heq (by simp)
  · rw [if_neg hemp] at heq
    have hne : (feedTimeseries feed).filter (fun x => x.time = some (today + i)) ≠ [] := by
      intro hnil
      exact hemp (by simp [hnil])
    have hpv : p = (today + i, summarize ((feedTimeseries feed).filter
        (fun x => x.time = some (today + i)))) := (Option.some.inj heq).symm
    exact ⟨i, hi, by rw [hpv], hne, by rw [hpv]⟩

/-- When both rounded temperature bounds exist, the rounded minimum is at
most the rounded maximum. -/
theorem summarize_temp_min_le_max (lst : List RawItem) {tmin tmax : ℤ}
    (hmin : (summarize lst).temp_min = some tmin)
    (hmax : (summarize lst).temp_max = some tmax) : tmin ≤ tmax := by
  cases htemps : lst.filterMap (·.temp) with
  | nil =>
    have h0 : (summarize lst).temp_min = none := by simp [summarize, htemps]
    rw [h0] at hmin
    exact absurd hmin (by simp)
  | cons h t =>
    have h1 : (summarize lst).temp_min = some (pyRoundInt (t.foldl min h)) := by
      simp [summarize, htemps]
    have h2 : (summarize lst).temp_max = some (pyRoundInt (t.foldl max h)) := by
      simp [summarize, htemps]
    rw [h1] at hmin
    rw [h2] at hmax
    have hle : t.foldl min h ≤ t.foldl max h :=
      le_trans (foldl_min_le_init t h) (init_le_foldl_max t h)
    have hmono := pyRoundInt_mono hle
    cases hmin
    cases hmax
    exact hmono

/-- Bucket precipitation totals are nonnegative when every entry's
short-window amount is. -/
theorem summarize_precip_nonneg (lst : List RawItem) (h : ∀ i ∈ lst, 0 ≤ precipOf i) :
    0 ≤ (summarize lst).precip_mm := by
  have hsum : 0 ≤ (lst.map precipOf).sum := by
    apply List.sum_nonneg
    intro q hq
    rcases List.mem_map.1 hq with ⟨i, hi, rfl⟩
    exact h i hi
  exact pyRound1_nonneg hsum

/-- The dates of `parse_yr`'s output are strictly ascending. -/
theorem parse_yr_sorted (today : ℤ) (feed : RawFeed) :
    ((parse_yr today feed).map Prod.fst).Sorted (· < ·) := by
  show ((parse_yr today feed).map Prod.fst).Pairwise (· < ·)
  rw [List.pairwise_map]
  simp only [parse_yr]
  apply pairwise_filterMap_of_pairwise (fun (i j : ℕ) => i < j)
  · intro a b p q hab hfa hfb
    simp only [] at hfa hfb
    by_cases he1 : ((feedTimeseries feed).filter
        (fun x => x.time = some (today + (a:ℤ)))).isEmpty
    · rw [if_pos he1] at hfa
      exact absurd hfa (by simp)
    · rw [if_neg he1] at hfa
      by_cases he2 : ((feedTimeseries feed).filter
          (fun x => x.time = some (today + (b:ℤ)))).isEmpty
      · rw [if_pos he2] at hfb
        exact absurd hfb (by simp)
      · rw [if_neg he2] at hfb
        have h1 : p.1 = today + (a:ℤ) := by rw [← Option.some.inj hfa]
        have h2 : q.1 = today + (b:ℤ) := by rw [← Option.some.inj hfb]
        have hab' : (a:ℤ) < b := by exact_mod_cast hab
        rw [h1, h2]
        omega
  · decide

/-- Claim C7: every summary collection `parse_yr` produces has at most 4
entries, all dated within `[today, today+3]`; dates are strictly
ascending (hence unique) in the order the layout consumes them; a date
whose bucket is empty never appears; `temp_min ≤ temp_max` whenever both
are present; and if every feed precipitation amount is nonnegative, so is
every `precip_mm`. -/
theorem C7_day_window_invariants (today : ℤ) (feed : RawFeed) :
    (parse_yr today feed).length ≤ 4 ∧
    (∀ p ∈ parse_yr today feed, today ≤ p.1 ∧ p.1 ≤ today + 3) ∧
    ((parse_yr today feed).map Prod.fst).Sorted (· < ·) ∧
    (∀ d : ℤ, (feedTimeseries feed).filter (fun x => x.time = some d) = [] →
      ∀ p ∈ parse_yr today feed, p.1 ≠ d) ∧
    (∀ p ∈ parse_yr today feed, ∀ tmin tmax : ℤ,
      p.2.temp_min = some tmin → p.2.temp_max = some tmax → tmin ≤ tmax) ∧
    ((∀ i ∈ feedTimeseries feed, 0 ≤ precipOf i) →
      ∀ p ∈ parse_yr today feed, 0 ≤ p.2.precip_mm) := by
  refine ⟨?_, fun p hp => ?_, parse_yr_sorted today feed, fun d hd p hp hpd => ?_,
    fun p hp tmin tmax hmin hmax => ?_, fun hnn p hp => ?_⟩
  · exact le_trans (List.length_filterMap_le _ _) (by simp)
  · rcases parse_yr_mem hp with ⟨i, hi4, hfst, -, -⟩
    have hi4' : (i:ℤ) < 4 := by exact_mod_cast hi4
    constructor <;> rw [hfst] <;> omega
  · rcases parse_yr_mem hp with ⟨i, -, hfst, hne, -⟩
    rw [hfst] at hpd
    rw [← hpd] at hd
    exact hne hd
  · rcases parse_yr_mem hp with ⟨i, -, -, -, hsumm⟩
    rw [hsumm] at hmin hmax
    exact summarize_temp_min_le_max _ hmin hmax
  · rcases parse_yr_mem hp with ⟨i, -, -, -, hsumm⟩
    rw [hsumm]
    apply summarize_precip_nonneg
    intro x hx
    exact hnn x (List.mem_filter.1 hx).1

/-- Witness for C7: the precipitation invariant at a concrete one-entry
feed. -/
theorem C7_witness : 0 ≤ ((0:ℤ), summarize [itemW]).2.precip_mm := by
  have hev : parse_yr 0 feedW = [((0:ℤ), summarize [itemW])] := by
    norm_num [parse_yr, feedTimeseries, feedW, List.range_succ, List.filterMap_cons,
      (show itemW.time = some 0 from rfl)]
  have hnn : ∀ i ∈ feedTimeseries feedW, 0 ≤ precipOf i := by
    intro i hi
    have hts : feedTimeseries feedW = [itemW] := rfl
    rw [hts] at hi
    rcases List.mem_singleton.1 hi with rfl
    norm_num [precipOf, itemW]
  exact (C7_day_window_invariants 0 feedW).2.2.2.2.2 hnn _
    (by rw [hev]; exact List.mem_singleton_self _)

/-- A feed with an empty effective timeseries yields no day summaries. -/
theorem parse_yr_empty_ts (today : ℤ) (feed : RawFeed) (h : feedTimeseries feed = []) :
    parse_yr today feed = [] := by
  simp [parse_yr, h]

/-- A feed with an empty effective timeseries yields no snapshot. -/
theorem parse_current_empty_ts (feed : RawFeed) (h : feedTimeseries feed = []) :
    parse_current_conditions feed = none := by
  unfold parse_current_conditions
  rw [h]

/-- With coordinates set and a fetch yielding an effectively empty feed,
`build_image` still renders: a header-only image with zero rows and
height 140, which `forecast_command` delivers as a photo. -/
theorem build_image_empty_ts (today : ℤ) (feed : RawFeed) (h : feedTimeseries feed = [])
    (s : Settings) (hc : s.coords ≠ none) :
    ∃ img : Rendered, (build_image s today (.ok feed)).1 = some img ∧
      img.numRows = 0 ∧ img.height = 140 ∧
      forecast_command s today (.ok feed) = .photo img s.location_name := by
  have hpy : parse_yr today feed = [] := parse_yr_empty_ts today feed h
  rcases s with ⟨a, ch, co, l, e⟩
  cases co with
  | none => exact absurd rfl hc
  | some c =>
    refine ⟨_, rfl, ?_, ?_, ?_⟩
    · show (parse_yr today feed).length = 0
      rw [hpy]
      rfl
    · show canvas_height (parse_yr today feed).length = 140
      rw [hpy]
      norm_num [canvas_height, pyInt, row_h]
    · rfl

/-- Counterexample to C4: on a raw feed with no `properties` object —
a structurally unusable feed — the aggregator does NOT fail with any
error: `parse_yr` returns the ordinary empty summary collection,
`parse_current_conditions` returns the ordinary empty snapshot, and the
pipeline goes on to build a header-only image. -/
theorem C4_counterexample :
    parse_yr 0 feedNoProps = [] ∧
    parse_current_conditions feedNoProps = none ∧
    (build_image settingsW 0 (.ok feedNoProps)).1 =
      some { width := 700, height := 140, numRows := 0, forecast := [],
             current := none, location_name := "Moscow" } := by
  refine ⟨parse_yr_empty_ts 0 feedNoProps rfl, rfl, ?_⟩
  norm_num [build_image, settingsW, parse_yr, feedTimeseries, feedNoProps,
    parse_current_conditions, canvas_height, pyInt, row_h, List.range_succ,
    (show ("Moscow":String) ≠ "" by decide)]

/-- Claim C4 as amended: for every raw feed missing the expected
top-level structure (no `properties` object, or no `timeseries` member),
the aggregator raises no error — it returns the empty summary collection
and empty snapshot — and with coordinates set the pipeline proceeds to
render a zero-row image from it. -/
theorem C4_amended_unusable_feed_is_empty (today : ℤ) (feed : RawFeed)
    (h : feed.properties = none ∨ ∃ fp, feed.properties = some fp ∧ fp.timeseries = none) :
    parse_yr today feed = [] ∧ parse_current_conditions feed = none ∧
    ∀ s : Settings, s.coords ≠ none →
      ∃ img : Rendered, (build_image s today (.ok feed)).1 = some img ∧
        img.numRows = 0 := by
  have hts : feedTimeseries feed = [] := by
    rcases h with h | ⟨fp, hfp, hts⟩
    · simp [feedTimeseries, h]
    · simp [feedTimeseries, hfp, hts]
  refine ⟨parse_yr_empty_ts today feed hts, parse_current_empty_ts feed hts, ?_⟩
  intro s hc
  rcases build_image_empty_ts today feed hts s hc with ⟨img, h1, h2, h3, h4⟩
  exact ⟨img, h1, h2⟩

/-- Witness for the amended C4 on the feed lacking `timeseries`. -/
theorem C4_witness :
    parse_yr 0 feedNoTs = [] ∧ parse_current_conditions feedNoTs = none :=
  have h := C4_amended_unusable_feed_is_empty 0 feedNoTs (Or.inr ⟨⟨none⟩, rfl, rfl⟩)
  ⟨h.1, h.2.1⟩

/-- Counterexample to C5: on a raw feed with zero timeseries entries the
pipeline does NOT report an empty or failure outcome — it renders a
blank (zero-row, header-only) table image and delivers it as a photo. -/
theorem C5_counterexample :
    (build_image settingsW 0 (.ok feedEmptyTs)).1 = some imgEmpty ∧
    imgEmpty.numRows = 0 ∧
    forecast_command settingsW 0 (.ok feedEmptyTs) = .photo imgEmpty (some "Moscow") := by
  refine ⟨build_image_feedEmptyTs, rfl, ?_⟩
  simp [forecast_command, (show settingsW.coords = some (55.75, 37.62) from rfl),
    build_image_feedEmptyTs, (show settingsW.location_name = some "Moscow" from rfl)]

/-- Claim C5 as amended: a feed with zero timeseries entries aggregates
to an empty day-summary sequence and an absent snapshot, the pipeline
does not crash, and — rather than reporting an empty/failure outcome —
it renders and delivers a header-only image with zero table rows. -/
theorem C5_amended_blank_render (today : ℤ) (feed : RawFeed)
    (h : feedTimeseries feed = []) :
    parse_yr today feed = [] ∧ parse_current_conditions feed = none ∧
    ∀ s : Settings, s.coords ≠ none →
      ∃ img : Rendered, (build_image s today (.ok feed)).1 = some img ∧
        img.numRows = 0 ∧ img.height = 140 ∧
        forecast_command s today (.ok feed) = .photo img s.location_name :=
  ⟨parse_yr_empty_ts today feed h, parse_current_empty_ts feed h,
    fun s hc => build_image_empty_ts today feed h s hc⟩

/-- Witness for the amended C5 on the concrete empty feed. -/
theorem C5_witness :
    parse_yr 0 feedEmptyTs = [] ∧ parse_current_conditions feedEmptyTs = none :=
  have h := C5_amended_blank_render 0 feedEmptyTs rfl
  ⟨h.1, h.2.1⟩

/-- Counterexample to C6: `feedC6` is not sorted ascending by time
(entry 0 is dated day 5, entry 1 day 3), yet the snapshot copies entry 0
— not the minimum-timestamp entry 1 — and their temperatures differ; the
snapshot also already carries the compass label, not the raw bearing. -/
theorem C6_counterexample :
    feedTimeseries feedC6 = [itemA, itemB] ∧
    itemA.time = some 5 ∧ itemB.time = some 3 ∧ (3:ℤ) < 5 ∧
    parse_current_conditions feedC6 =
      some { temp := itemA.temp, windDir := "?", windSpeed := none, precip := 0 } ∧
    itemA.temp ≠ itemB.temp := by
  refine ⟨rfl, rfl, rfl, by norm_num, rfl, ?_⟩
  norm_num [itemA, itemB]

/-- Claim C6 as amended: the current-conditions snapshot is derived from
the FIRST entry of the feed in feed order (position 0), not from the
minimum-timestamp entry; its temperature is copied as-is, its wind
direction is converted to a compass label already inside the snapshot,
and a missing short-window precipitation block is treated as 0. -/
theorem C6_amended_first_entry_snapshot :
    (∀ (feed : RawFeed) (first : RawItem) (rest : List RawItem),
      feedTimeseries feed = first :: rest →
      parse_current_conditions feed =
        some { temp := first.temp, windDir := deg_to_compass first.wind_dir,
               windSpeed := first.wind_speed, precip := precipOf first }) ∧
    (∀ feed : RawFeed, feedTimeseries feed = [] →
      parse_current_conditions feed = none) ∧
    (∀ i : RawItem, i.next1h = none → precipOf i = 0) := by
  refine ⟨fun feed first rest h => ?_, fun feed h => parse_current_empty_ts feed h,
    fun i h => ?_⟩
  · unfold parse_current_conditions
    rw [h]
  · unfold precipOf
    rw [h]

/-- Witness for the amended C6 at the concrete out-of-order feed. -/
theorem C6_witness :
    parse_current_conditions feedC6 =
      some { temp := itemA.temp, windDir := deg_to_compass itemA.wind_dir,
             windSpeed := itemA.wind_speed, precip := precipOf itemA } :=
  C6_amended_first_entry_snapshot.1 feedC6 itemA [itemB] rfl

/-- Claim C8: with no coordinates set, the command pipeline answers the
not-configured message and `build_image` never reaches the HTTP request
(the fetch flag stays `false`). -/
theorem C8_not_configured_no_fetch (s : Settings) (today : ℤ) (fetch : FetchResult)
    (h : s.coords = none) :
    forecast_command s today fetch = .notConfigured ∧
    (build_image s today fetch).2 = false := by
  rcases s with ⟨a, ch, co, l, e⟩
  cases co with
  | none => exact ⟨rfl, rfl⟩
  | some c => exact absurd h (by simp)

/-- Witness for C8 at the concrete unconfigured settings record. -/
theorem C8_witness :
    forecast_command settingsNoCoords 0 .err = .notConfigured ∧
    (build_image settingsNoCoords 0 .err).2 = false :=
  C8_not_configured_no_fetch settingsNoCoords 0 .err rfl

/-- Claim C10: `build_image` returns `none` exactly when coordinates are
unset or the fetch fails, so `none` alone cannot tell the two apart; the
caller reports the not-configured message only because it checks the
coordinates itself first, and reports every `none` from `build_image` as
the generic fetch-error message. -/
theorem C10_none_is_ambiguous (s : Settings) (today : ℤ) (fetch : FetchResult) :
    ((build_image s today fetch).1 = none ↔ s.coords = none ∨ fetch = .err) ∧
    (s.coords = none → forecast_command s today fetch = .notConfigured) ∧
    (s.coords ≠ none → (build_image s today fetch).1 = none →
      forecast_command s today fetch = .fetchError) := by
  rcases s with ⟨a, ch, co, l, e⟩
  cases co with
  | none =>
    exact ⟨⟨fun _ => Or.inl rfl, fun _ => rfl⟩, fun _ => rfl, fun hn => absurd rfl hn⟩
  | some c =>
    cases fetch with
    | err =>
      exact ⟨⟨fun _ => Or.inr rfl, fun _ => rfl⟩, fun h => absurd h (by simp),
        fun _ _ => rfl⟩
    | ok raw =>
      refine ⟨⟨fun h => absurd h (by simp [build_image]), fun h => ?_⟩,
        fun h => absurd h (by simp), fun _ hbi => absurd hbi (by simp [build_image])⟩
      rcases h with h | h
      · exact absurd h (by simp)
      · exact absurd h (by simp)

/-- Witness for C10: the two indistinguishable `none` sources and the
caller's replies, at concrete inputs. -/
theorem C10_witness :
    forecast_command settingsNoCoords 0 .err = .notConfigured ∧
    forecast_command settingsW 0 .err = .fetchError :=
  ⟨(C10_none_is_ambiguous settingsNoCoords 0 .err).2.1 rfl,
   (C10_none_is_ambiguous settingsW 0 .err).2.2 (by simp [settingsW]) rfl⟩
